import Mathlib

/-!
# Verification of the synapse-qnet QKD protocol engine

Shallow embedding of the two protocol variants of the QKD simulation engine
(`src/protocols/bb84.py`, the prepare-and-measure scheme, and
`src/protocols/e91.py`, the entanglement-based scheme), together with proofs
of the behavioural properties stated in the specification.

Modelling conventions:
* Python floats are modelled as rationals (every Python float is a rational
  number); the only genuinely transcendental quantities — the fibre-loss
  power `10 ** (-loss*d/10)`, the binary entropy used for the secure key
  rate, and the cosine correlation law — are modelled over `ℝ`.
* The global `random` module is modelled as an explicit state `Rng` that is
  threaded through the pipeline: a tape of rational draws (one per call to
  `random.random` / `random.randint` / `random.choice`) plus a tape of index
  lists for `random.sample`.  All claims are quantified over every tape, so
  every behaviour of the seeded Python generator is covered.
-/

namespace SynapseQNet

/-! ## Channel model (`_calculate_transmission`, bb84.py 88-91 / e91.py 83-86) -/

/-- `_calculate_transmission` (bb84.py 88-91, e91.py 83-86):
`loss_linear = 10 ** (-loss_db_per_km * distance_km / 10)` and the returned
probability is `loss_linear * detector_efficiency`. -/
noncomputable def calculate_transmission (loss_db_per_km distance_km detector_efficiency : ℝ) : ℝ :=
  (10 : ℝ) ^ (-(loss_db_per_km * distance_km) / 10) * detector_efficiency

/-! ## Explicit model of the global `random` state

Each call to `random.random()`, `random.randint(0,1)` or `random.choice`
consumes one cell of the rational tape; each call to `random.sample`
consumes one cell of the sample tape.  Quantifying over all tapes covers
every behaviour of the seeded Python generator. -/

structure Rng where
  tape : ℕ → ℚ
  sampleTape : ℕ → List ℕ
  idx : ℕ

/-- One call to `random.random()`: a draw in `[0,1)`. -/
def Rng.nextQ (g : Rng) : ℚ × Rng :=
  (g.tape g.idx, { g with idx := g.idx + 1 })

/-- `random.sample(range(n), k)`: `k` distinct indices, modelled as the next
cell of the sample tape truncated to `k` elements. -/
def Rng.sample (g : Rng) (k : ℕ) : List ℕ × Rng :=
  ((g.sampleTape g.idx).take k, { g with idx := g.idx + 1 })

/-- Thread the rng state through a list traversal (the `for` loops of the
source that perform random draws per element). -/
def stateMap {α β : Type} (f : α → Rng → β × Rng) : List α → Rng → List β × Rng
  | [], g => ([], g)
  | a :: as, g =>
    let (b, g1) := f a g
    let (bs, g2) := stateMap f as g1
    (b :: bs, g2)

/-- Python `int(q)` on a float value: truncation toward zero. -/
def pyInt (q : ℚ) : ℤ :=
  if q < 0 then -(Int.floor (-q)) else Int.floor q

/-- `np.log2(2)`, which the source multiplies into the leaked-bits estimate
(bb84.py 255); it is exactly `1.0`. -/
def np_log2_two : ℚ := 1

/-! ## BB84 data model (bb84.py 12-69) -/

inductive Basis where
  | rectilinear
  | diagonal
deriving DecidableEq, Repr

inductive Bit where
  | zero
  | one
deriving DecidableEq, Repr

/-- `Photon` (bb84.py 22-28). -/
structure Photon where
  bit : Bit
  basis : Basis
  is_decoy : Bool
  intensity : ℚ
deriving DecidableEq, Repr

/-- `Detection` (bb84.py 39-46). -/
structure Detection where
  bit : Option Bit
  basis : Basis
  detected : Bool
  dark_count : Bool
  timestamp : ℚ
deriving DecidableEq, Repr

/-- `ChannelParameters` (bb84.py 48-56). -/
structure ChannelParameters where
  loss_db_per_km : ℚ
  distance_km : ℚ
  depolarization_rate : ℚ
  detector_efficiency : ℚ
  dark_count_rate : ℚ
  timing_jitter_ns : ℚ
deriving DecidableEq, Repr

/-- `BB84Parameters` (bb84.py 58-69). -/
structure BB84Parameters where
  pulse_rate_hz : ℚ
  duration_seconds : ℚ
  basis_choice_prob : ℚ
  decoy_state_prob : ℚ
  weak_intensity : ℚ
  decoy_intensity : ℚ
  error_correction_efficiency : ℚ
  privacy_amplification_factor : ℚ
  qber_threshold : ℚ
deriving DecidableEq, Repr

/-! ## BB84 pipeline (bb84.py 93-331)

The stored float `self.transmission_prob` is a rational number (it is a
Python float); the run functions below take it as the parameter
`transmission_prob`, universally quantified, which covers every value the
float computation `_calculate_transmission` can produce.  The real-valued
contract of `_calculate_transmission` itself is `calculate_transmission`
above. -/

/-- `_generate_random_basis` (bb84.py 93-95). -/
def generate_random_basis (p : BB84Parameters) (g : Rng) : Basis × Rng :=
  let (r, g) := g.nextQ
  (if r < p.basis_choice_prob then Basis.rectilinear else Basis.diagonal, g)

/-- `_generate_random_bit` (bb84.py 97-99). -/
def generate_random_bit (g : Rng) : Bit × Rng :=
  let (r, g) := g.nextQ
  (if r < 1 / 2 then Bit.zero else Bit.one, g)

/-- `_choose_intensity` (bb84.py 101-109): returns (intensity, is_decoy). -/
def choose_intensity (p : BB84Parameters) (g : Rng) : (ℚ × Bool) × Rng :=
  let (r, g) := g.nextQ
  if r < p.decoy_state_prob / 2 then ((p.decoy_intensity, true), g)
  else if r < p.decoy_state_prob then ((p.weak_intensity, true), g)
  else ((1, false), g)

/-- `num_pulses = int(pulse_rate_hz * duration_seconds)` (bb84.py 114). -/
def num_pulses (p : BB84Parameters) : ℕ :=
  (pyInt (p.pulse_rate_hz * p.duration_seconds)).toNat

/-- One iteration of the `alice_prepare` loop (bb84.py 116-127): a random
bit, a random basis and an intensity class. -/
def alice_prepare_one (p : BB84Parameters) (_i : ℕ) (g : Rng) : Photon × Rng :=
  let (bit, g) := generate_random_bit g
  let (basis, g) := generate_random_basis p g
  let (ib, g) := choose_intensity p g
  (⟨bit, basis, ib.2, ib.1⟩, g)

/-- `alice_prepare` (bb84.py 111-130).  The lists `alice_bits`,
`alice_bases`, `alice_intensities` that the source stores alongside are the
fieldwise projections of the returned photon list. -/
def alice_prepare (p : BB84Parameters) (g : Rng) : List Photon × Rng :=
  stateMap (alice_prepare_one p) (List.range (num_pulses p)) g

def flip_basis : Basis → Basis
  | Basis.rectilinear => Basis.diagonal
  | Basis.diagonal => Basis.rectilinear

/-- One iteration of the `quantum_channel` loop (bb84.py 136-149): an
intensity-weighted transmission draw, then a depolarization draw that flips
the basis of a transmitted photon. -/
def quantum_channel_one (transmission_prob depolarization_rate : ℚ) (ph : Photon) (g : Rng) :
    Option Photon × Rng :=
  let (r, g) := g.nextQ
  if r < transmission_prob * ph.intensity then
    let (r2, g) := g.nextQ
    (some (if r2 < depolarization_rate then { ph with basis := flip_basis ph.basis } else ph), g)
  else
    (none, g)

/-- `quantum_channel` (bb84.py 132-154). -/
def quantum_channel (transmission_prob depolarization_rate : ℚ) (photons : List Photon)
    (g : Rng) : List (Option Photon) × Rng :=
  stateMap (quantum_channel_one transmission_prob depolarization_rate) photons g

/-- One iteration of the `bob_measure` loop (bb84.py 160-182); `n` is
`len(photons)`, `i` the slot index. -/
def bob_measure_one (p : BB84Parameters) (c : ChannelParameters) (n : ℕ)
    (slot : ℕ × Option Photon) (g : Rng) : Detection × Rng :=
  let (basis, g) := generate_random_basis p g
  match slot.2 with
  | none =>
    let (r, g) := g.nextQ
    if r < c.dark_count_rate * p.duration_seconds / n then
      let (bit, g) := generate_random_bit g
      (⟨some bit, basis, true, true, (slot.1 : ℚ) * p.duration_seconds / n⟩, g)
    else
      (⟨none, basis, false, false, 0⟩, g)
  | some ph =>
    if ph.basis = basis then
      (⟨some ph.bit, basis, true, false, (slot.1 : ℚ) * p.duration_seconds / n⟩, g)
    else
      let (bit, g) := generate_random_bit g
      (⟨some bit, basis, true, false, (slot.1 : ℚ) * p.duration_seconds / n⟩, g)

/-- `bob_measure` (bb84.py 156-187). -/
def bob_measure (p : BB84Parameters) (c : ChannelParameters) (photons : List (Option Photon))
    (g : Rng) : List Detection × Rng :=
  stateMap (bob_measure_one p c photons.length) photons.enum g

/-- `basis_reconciliation` loop body (bb84.py 194-200), traversing the
sender data zipped with the receiver detections.  The index guard
`i < len(self.alice_intensities)` of the source is always true on the
zipped range, so the decoy exclusion reduces to `intensity < 1`.
A detected event always carries `some` bit; `getD` is only a type-level
default. -/
def basis_reconciliation_go : List (Bit × Basis × ℚ) → List Detection → List Bit × List Bit
  | [], _ => ([], [])
  | _, [] => ([], [])
  | a :: as, d :: ds =>
    let rest := basis_reconciliation_go as ds
    if d.detected ∧ a.2.1 = d.basis ∧ ¬(a.2.2 < 1) then
      (a.1 :: rest.1, (d.bit.getD Bit.zero) :: rest.2)
    else
      rest

/-- `basis_reconciliation` (bb84.py 189-205): returns the two sifted
sequences (sender first). -/
def basis_reconciliation (photons : List Photon) (detections : List Detection) :
    List Bit × List Bit :=
  basis_reconciliation_go (photons.map fun ph => (ph.bit, ph.basis, ph.intensity)) detections

/-- Number of positions where the two sequences disagree. -/
def countMismatch : List Bit → List Bit → ℕ
  | a :: as, b :: bs => (if a = b then 0 else 1) + countMismatch as bs
  | _, _ => 0

/-- `error_estimation` (bb84.py 207-217): `1.0` when the lengths differ or
the sifted key is empty, otherwise the fraction of disagreeing positions. -/
def error_estimation (alice_sifted bob_sifted : List Bit) : ℚ :=
  if alice_sifted.length ≠ bob_sifted.length ∨ alice_sifted.length = 0 then 1
  else (countMismatch alice_sifted bob_sifted : ℚ) / alice_sifted.length

/-- The `secure` flag of the BB84 security analysis (bb84.py 227):
`error_rate < qber_threshold`. -/
def bb84_secure (p : BB84Parameters) (error_rate : ℚ) : Bool :=
  decide (error_rate < p.qber_threshold)

/-- The binary entropy `h2` helper of `security_analysis` (bb84.py 235):
`-x*log2(x) - (1-x)*log2(1-x)` for `0 < x < 1`, else `0`. -/
noncomputable def h2 (x : ℝ) : ℝ :=
  if 0 < x ∧ x < 1 then -(x * Real.logb 2 x) - (1 - x) * Real.logb 2 (1 - x) else 0

/-- `SecurityMetrics` dictionary of bb84.py 225-239. -/
structure BB84SecurityMetrics where
  qber : ℚ
  secure : Bool
  estimated_eve_information : ℚ
  transmission_distance_km : ℚ
  raw_key_rate_bps : ℚ
  secure_key_rate_bps : ℝ

/-- `security_analysis` (bb84.py 219-241); `sifted_len` is
`len(self.sifted_key)` and `error_rate` is `self.error_rate`. -/
noncomputable def security_analysis (p : BB84Parameters) (c : ChannelParameters)
    (error_rate : ℚ) (sifted_len : ℕ) : BB84SecurityMetrics :=
  let raw_rate : ℚ := (sifted_len : ℚ) / p.duration_seconds
  { qber := error_rate
    secure := bb84_secure p error_rate
    estimated_eve_information := if 0 < error_rate then min 1 (2 * error_rate) else 0
    transmission_distance_km := c.distance_km
    raw_key_rate_bps := raw_rate
    secure_key_rate_bps :=
      if bb84_secure p error_rate then
        (raw_rate : ℝ) *
          max 0 (1 - (p.error_correction_efficiency : ℝ) * h2 (error_rate : ℝ) - h2 (error_rate : ℝ))
      else 0 }

/-- `error_correction` (bb84.py 243-264): when the lengths agree, both keys
are truncated to `max(0, len - int(ec_efficiency * len * error_rate * np.log2(2)))`. -/
def error_correction (p : BB84Parameters) (error_rate : ℚ) (alice_key bob_key : List Bit) :
    List Bit × List Bit :=
  if alice_key.length ≠ bob_key.length then (alice_key, bob_key)
  else
    let info_leaked : ℤ :=
      pyInt (p.error_correction_efficiency * (alice_key.length : ℚ) * error_rate * np_log2_two)
    let key_length : ℕ := (max 0 ((alice_key.length : ℤ) - info_leaked)).toNat
    (alice_key.take key_length, bob_key.take key_length)

/-- `privacy_amplification` (bb84.py 266-283): truncation to
`max(0, len - min(len, int(len * error_rate * pa_factor)))`. -/
def privacy_amplification (p : BB84Parameters) (error_rate : ℚ) (key : List Bit) : List Bit :=
  if key.length = 0 then []
  else
    let eve_info : ℤ :=
      min (key.length : ℤ) (pyInt ((key.length : ℚ) * error_rate * p.privacy_amplification_factor))
    let final_length : ℕ := (max 0 ((key.length : ℤ) - eve_info)).toNat
    key.take final_length

/-- Steps 1-4 of `run_protocol` (bb84.py 291-301): prepare, transmit,
measure, sift.  Returns (photons, alice_sifted, bob_sifted). -/
def bb84_pipeline (p : BB84Parameters) (c : ChannelParameters) (transmission_prob : ℚ)
    (g : Rng) : List Photon × List Bit × List Bit :=
  let pg := alice_prepare p g
  let rg := quantum_channel transmission_prob c.depolarization_rate pg.1 pg.2
  let dg := bob_measure p c rg.1 rg.2
  (pg.1, basis_reconciliation pg.1 dg.1)

/-- `run_protocol` result dictionary (bb84.py 303-331); a key absent from a
branch of the source dictionary is `none` here, and an absent final key has
length `0`. -/
structure BB84Result where
  success : Bool
  final_key_bits : ℕ
  metrics : Option BB84SecurityMetrics
  error : Option String
  key_rate_bps : Option ℝ
  efficiency : Option ℚ

/-- `run_protocol` (bb84.py 285-331). -/
noncomputable def run_protocol (p : BB84Parameters) (c : ChannelParameters)
    (transmission_prob : ℚ) (g : Rng) : BB84Result :=
  let t := bb84_pipeline p c transmission_prob g
  let photons := t.1
  let alice_sifted := t.2.1
  let bob_sifted := t.2.2
  if alice_sifted.length = 0 then
    ⟨false, 0, none, some ("No sifted key generated"), none, none⟩
  else
    let qber := error_estimation alice_sifted bob_sifted
    let m := security_analysis p c qber alice_sifted.length
    if m.secure then
      let corrected := error_correction p qber alice_sifted bob_sifted
      let final_key := privacy_amplification p qber corrected.1
      ⟨true, final_key.length, some m, none, some m.secure_key_rate_bps,
        some (if photons.length = 0 then 0 else (final_key.length : ℚ) / photons.length)⟩
    else
      ⟨false, 0, some m, some ("QBER exceeds threshold"), none, none⟩

/-! ## E91 data model (e91.py 22-59) -/

/-- `EntangledPair` (e91.py 22-27). -/
structure EntangledPair where
  state : String
  creation_time : ℚ
  fidelity : ℚ
deriving DecidableEq, Repr

/-- `Measurement` (e91.py 29-35); `basis_angle` in degrees, `result` 0/1. -/
structure Measurement where
  basis_angle : ℚ
  result : ℕ
  timestamp : ℚ
  detected : Bool
deriving DecidableEq, Repr

/-- `E91Parameters` (e91.py 37-50). -/
structure E91Parameters where
  pair_generation_rate_hz : ℚ
  duration_seconds : ℚ
  detection_efficiency : ℚ
  dark_count_rate : ℚ
  bell_test_fraction : ℚ
  timing_window_ns : ℚ
  bell_violation_threshold : ℚ
  error_correction_efficiency : ℚ
  privacy_amplification_factor : ℚ
deriving DecidableEq, Repr

/-- E91 `ChannelParameters` (e91.py 52-59). -/
structure E91ChannelParameters where
  loss_db_per_km : ℚ
  alice_distance_km : ℚ
  bob_distance_km : ℚ
  depolarization_rate : ℚ
  timing_jitter_ns : ℚ
deriving DecidableEq, Repr

/-! ## E91 pipeline (e91.py 88-440)

As for BB84, the two stored transmission floats
`self.alice_transmission` / `self.bob_transmission` enter the run functions
as universally quantified rational parameters. -/

/-- `random.randint(0, 1)`: one tape draw mapped to a bit. -/
def Rng.randInt01 (g : Rng) : ℕ × Rng :=
  let (r, g) := g.nextQ
  (if r < 1 / 2 then 0 else 1, g)

/-- `random.choice([a, b, c])`: one tape draw mapped to one of three
values. -/
def Rng.choice3 (g : Rng) (a b c : ℚ) : ℚ × Rng :=
  let (r, g) := g.nextQ
  (if r < 1 / 3 then a else if r < 2 / 3 then b else c, g)

/-- One iteration of the `generate_entangled_pairs` loop (e91.py 93-102):
`fidelity = max(0.5, 1 - random() * depolarization_rate)`,
`creation_time = i * duration / num_pairs`. -/
def gen_pair_one (p : E91Parameters) (c : E91ChannelParameters) (n : ℕ) (i : ℕ) (g : Rng) :
    EntangledPair × Rng :=
  let (r, g) := g.nextQ
  (⟨"phi_plus", (i : ℚ) * p.duration_seconds / n, max (1 / 2) (1 - r * c.depolarization_rate)⟩, g)

/-- `num_pairs = int(pair_generation_rate_hz * duration_seconds)` (e91.py 90). -/
def num_pairs (p : E91Parameters) : ℕ :=
  (pyInt (p.pair_generation_rate_hz * p.duration_seconds)).toNat

/-- `generate_entangled_pairs` (e91.py 88-105). -/
def generate_entangled_pairs (p : E91Parameters) (c : E91ChannelParameters) (g : Rng) :
    List EntangledPair × Rng :=
  stateMap (gen_pair_one p c (num_pairs p)) (List.range (num_pairs p)) g

/-- `_calculate_measurement_result` (e91.py 175-203): 5% detector noise
returns a random bit; otherwise for the `phi_plus` state a base random bit
is returned for angles 0/90, kept with probability `fidelity` for 45,
inverted with probability `fidelity` for 135; every other path falls
through to the final random bit.  The source never returns `None`. -/
def calc_measurement_result (pair : EntangledPair) (angle : ℚ) (g : Rng) : Option ℕ × Rng :=
  let (r, g) := g.nextQ
  if r > 95 / 100 then
    let (b, g) := g.randInt01
    (some b, g)
  else if pair.state = "phi_plus" then
    let (base, g) := g.randInt01
    if angle = 0 ∨ angle = 90 then (some base, g)
    else if angle = 45 then
      let (r2, g) := g.nextQ
      (some (if r2 < pair.fidelity then base else 1 - base), g)
    else if angle = 135 then
      let (r2, g) := g.nextQ
      (some (if r2 < pair.fidelity then 1 - base else base), g)
    else
      let (b, g) := g.randInt01
      (some b, g)
  else
    let (b, g) := g.randInt01
    (some b, g)

/-- One iteration of the `alice_measure` loop (e91.py 111-134): a
transmission draw (`random() > alice_transmission` means the photon is
lost), a choice among the angles 0/45/90, then the correlated result. -/
def alice_measure_one (alice_transmission : ℚ) (pair : EntangledPair) (g : Rng) :
    Option Measurement × Rng :=
  let (r, g) := g.nextQ
  if r > alice_transmission then (none, g)
  else
    let (angle, g) := g.choice3 0 45 90
    let (res, g) := calc_measurement_result pair angle g
    match res with
    | some b => (some ⟨angle, b, pair.creation_time, true⟩, g)
    | none => (none, g)

/-- One iteration of the `bob_measure` loop (e91.py 145-168): angles
45/90/135. -/
def e91_bob_measure_one (bob_transmission : ℚ) (pair : EntangledPair) (g : Rng) :
    Option Measurement × Rng :=
  let (r, g) := g.nextQ
  if r > bob_transmission then (none, g)
  else
    let (angle, g) := g.choice3 45 90 135
    let (res, g) := calc_measurement_result pair angle g
    match res with
    | some b => (some ⟨angle, b, pair.creation_time, true⟩, g)
    | none => (none, g)

/-- The `coincidence_filtering` loop (e91.py 210-215) over the zipped slot
list. -/
def coincidence_filtering_go (p : E91Parameters) :
    List (Option Measurement × Option Measurement) → List (Measurement × Measurement)
  | [] => []
  | (some am, some bm) :: rest =>
    if |am.timestamp - bm.timestamp| ≤ p.timing_window_ns * (1 / 1000000000) then
      (am, bm) :: coincidence_filtering_go p rest
    else coincidence_filtering_go p rest
  | (some _, none) :: rest => coincidence_filtering_go p rest
  | (none, _) :: rest => coincidence_filtering_go p rest

/-- `coincidence_filtering` (e91.py 205-218): keep slot positions where both
sides detected and the timestamps differ by at most
`timing_window_ns * 1e-9`. -/
def coincidence_filtering (p : E91Parameters)
    (alice_ms bob_ms : List (Option Measurement)) : List (Measurement × Measurement) :=
  coincidence_filtering_go p (List.zip alice_ms bob_ms)

/-- `_is_key_compatible` (e91.py 251-260). -/
def is_key_compatible (alice_angle bob_angle : ℚ) : Bool :=
  decide ((alice_angle, bob_angle) ∈
    [((0 : ℚ), (45 : ℚ)), (45, 90), (90, 135), (45, 45), (90, 90)])

/-- The enumerated split of `basis_selection` (e91.py 232-241): a pair whose
index is in the Bell-test index sample goes to the Bell-test list, the rest
go to the key list when their angles are key compatible. -/
def basis_selection_go (bell_idx : List ℕ) :
    List (Measurement × Measurement) → ℕ →
      List (Measurement × Measurement) × List (Measurement × Measurement)
  | [], _ => ([], [])
  | pr :: rest, i =>
    let acc := basis_selection_go bell_idx rest (i + 1)
    if i ∈ bell_idx then (pr :: acc.1, acc.2)
    else if is_key_compatible pr.1.basis_angle pr.2.basis_angle then (acc.1, pr :: acc.2)
    else acc

/-- `basis_selection` (e91.py 220-249): reserves
`int(len(coincidences) * bell_test_fraction)` randomly sampled pairs for
the Bell test and filters the rest for key compatibility. -/
def basis_selection (p : E91Parameters) (coincidences : List (Measurement × Measurement))
    (g : Rng) : (List (Measurement × Measurement) × List (Measurement × Measurement)) × Rng :=
  let num_bell : ℕ := (pyInt ((coincidences.length : ℚ) * p.bell_test_fraction)).toNat
  let (bell_idx, g) := g.sample num_bell
  (basis_selection_go bell_idx coincidences 0, g)

/-- Per-pair correlation value of `bell_test` (e91.py 277): `+1` for equal
results, `-1` for different. -/
def corr_value (pr : Measurement × Measurement) : ℚ :=
  if pr.1.result = pr.2.result then 1 else -1

/-- The correlation values collected for one angle pair by the
`bell_test` accumulation loop (e91.py 269-278). -/
def corr_list (pairs : List (Measurement × Measurement)) (a b : ℚ) : List ℚ :=
  (pairs.filter fun pr => pr.1.basis_angle = a ∧ pr.2.basis_angle = b).map corr_value

/-- `avg_correlations.get((a, b), 0)` (e91.py 281-292): the mean of the
collected correlation values, defaulting to `0` for a missing angle pair. -/
def avg_corr (pairs : List (Measurement × Measurement)) (a b : ℚ) : ℚ :=
  let vs := corr_list pairs a b
  if vs.length = 0 then 0 else vs.sum / vs.length

/-- `bell_test` (e91.py 262-308): `0.0` for fewer than 4 pairs, otherwise
`S = |E(0,45) - E(0,135) + E(45,45) + E(45,135)|`. -/
def bell_test (bell_pairs : List (Measurement × Measurement)) : ℚ :=
  if bell_pairs.length < 4 then 0
  else
    |avg_corr bell_pairs 0 45 - avg_corr bell_pairs 0 135 +
      avg_corr bell_pairs 45 45 + avg_corr bell_pairs 45 135|

/-- `key_sifting` (e91.py 310-322): the sender results of the key pairs. -/
def key_sifting (key_pairs : List (Measurement × Measurement)) : List ℕ :=
  key_pairs.map fun pr => pr.1.result

/-- `_expected_correlation` (e91.py 350-354):
`cos(radians(abs(alice_angle - bob_angle)))`. -/
noncomputable def expected_correlation (alice_angle bob_angle : ℚ) : ℝ :=
  Real.cos (|(alice_angle : ℝ) - (bob_angle : ℝ)| * Real.pi / 180)

open Classical in
/-- The per-pair error predicate of `error_estimation` (e91.py 332-343):
for positive expected correlation an error is a disagreement, otherwise an
agreement. -/
noncomputable def e91_is_error (pr : Measurement × Measurement) : Bool :=
  if 0 < expected_correlation pr.1.basis_angle pr.2.basis_angle then
    decide (pr.1.result ≠ pr.2.result)
  else
    decide (pr.1.result = pr.2.result)

/-- `error_estimation` (e91.py 324-348): `1.0` for an empty pair list,
otherwise the error fraction against the expected correlation sign. -/
noncomputable def e91_error_estimation (key_pairs : List (Measurement × Measurement)) : ℚ :=
  if key_pairs.isEmpty then 1
  else ((key_pairs.filter e91_is_error).length : ℚ) / key_pairs.length

/-- The `secure` flag of the E91 security analysis (e91.py 360-361):
`bell_parameter > bell_violation_threshold and qber < 0.11`. -/
def e91_secure (p : E91Parameters) (bell_parameter qber : ℚ) : Bool :=
  decide (p.bell_violation_threshold < bell_parameter) && decide (qber < 11 / 100)

/-- Metrics dictionary of e91.py 363-377. -/
structure E91SecurityMetrics where
  bell_parameter : ℚ
  qber : ℚ
  secure : Bool
  eavesdropper_detected : Bool
  raw_key_rate_bps : ℚ
  secure_key_rate_bps : ℝ

/-- `security_analysis` (e91.py 356-379); `sifted_len` is
`len(self.sifted_key)`. -/
noncomputable def e91_security_analysis (p : E91Parameters) (bell_parameter qber : ℚ)
    (sifted_len : ℕ) : E91SecurityMetrics :=
  let raw_rate : ℚ := (sifted_len : ℚ) / p.duration_seconds
  { bell_parameter := bell_parameter
    qber := qber
    secure := e91_secure p bell_parameter qber
    eavesdropper_detected := decide (bell_parameter < 2)
    raw_key_rate_bps := raw_rate
    secure_key_rate_bps :=
      if e91_secure p bell_parameter qber then
        (raw_rate : ℝ) *
          max 0 (1 - (p.error_correction_efficiency : ℝ) * h2 (qber : ℝ) - h2 (qber : ℝ))
      else 0 }

/-- `corrected_length = max(0, int(len(raw_key) * 0.8))` (e91.py 422). -/
def e91_corrected_len (raw_len : ℕ) : ℕ :=
  (max 0 (pyInt ((raw_len : ℚ) * (8 / 10)))).toNat

/-- `final_length = max(0, int(corrected_length * 0.7))` (e91.py 423). -/
def e91_final_len (raw_len : ℕ) : ℕ :=
  (max 0 (pyInt ((e91_corrected_len raw_len : ℚ) * (7 / 10)))).toNat

/-- Steps 1-4 of the E91 `run_protocol` (e91.py 388-402): generate, measure
both sides, filter coincidences, split into Bell-test and key pairs.
Returns (pairs, coincidences, bell_pairs, key_pairs). -/
def e91_pipeline (p : E91Parameters) (c : E91ChannelParameters)
    (alice_transmission bob_transmission : ℚ) (g : Rng) :
    List EntangledPair × List (Measurement × Measurement) ×
      List (Measurement × Measurement) × List (Measurement × Measurement) :=
  let pg := generate_entangled_pairs p c g
  let ag := stateMap (alice_measure_one alice_transmission) pg.1 pg.2
  let bg := stateMap (e91_bob_measure_one bob_transmission) pg.1 ag.2
  let coins := coincidence_filtering p ag.1 bg.1
  let sel := basis_selection p coins bg.2
  (pg.1, coins, sel.1.1, sel.1.2)

/-- E91 `run_protocol` result dictionary (e91.py 398-440); absent dictionary
keys are `none`, an absent final key has length `0`. -/
structure E91Result where
  success : Bool
  final_key_bits : ℕ
  metrics : Option E91SecurityMetrics
  error : Option String
  bell_parameter : Option ℚ
  efficiency : Option ℚ

/-- `run_protocol` (e91.py 381-440). -/
noncomputable def e91_run_protocol (p : E91Parameters) (c : E91ChannelParameters)
    (alice_transmission bob_transmission : ℚ) (g : Rng) : E91Result :=
  let t := e91_pipeline p c alice_transmission bob_transmission g
  let pairs := t.1
  let coins := t.2.1
  let bell_pairs := t.2.2.1
  let key_pairs := t.2.2.2
  if coins.length = 0 then
    ⟨false, 0, none, some ("No coincident detections"), none, none⟩
  else
    let S := bell_test bell_pairs
    let raw_key := key_sifting key_pairs
    if raw_key.length = 0 then
      ⟨false, 0, none, some ("No key material generated"), none, none⟩
    else
      let qber := e91_error_estimation key_pairs
      let m := e91_security_analysis p S qber raw_key.length
      if m.secure then
        let final_key := raw_key.take (e91_final_len raw_key.length)
        ⟨true, final_key.length, some m, none, some S,
          some (if pairs.length = 0 then 0 else (final_key.length : ℚ) / pairs.length)⟩
      else
        ⟨false, 0, some m, some ("Security conditions not met"), some S, none⟩

/-! ## Constructor behaviour (for the configuration-validation claim) -/

/-- The mutable record-keeping state initialised by `BB84Protocol.__init__`
(bb84.py 74-86). -/
structure BB84State where
  params : BB84Parameters
  channel : ChannelParameters
  alice_bits : List Bit
  alice_bases : List Basis
  alice_intensities : List ℚ
  bob_measurements : List Detection
  sifted_key : List Bit
  error_rate : ℚ
  final_key : List Bit
  transmission_prob : ℝ

/-- `BB84Protocol.__init__` (bb84.py 74-91): stores the configuration,
initialises every record list empty and computes the transmission
probability.  The body contains no range validation and no `raise`, so the
`Except` embedding always returns `.ok`. -/
noncomputable def bb84_init (p : BB84Parameters) (c : ChannelParameters) :
    Except String BB84State :=
  .ok { params := p, channel := c, alice_bits := [], alice_bases := [],
        alice_intensities := [], bob_measurements := [], sifted_key := [],
        error_rate := 0, final_key := [],
        transmission_prob :=
          calculate_transmission (c.loss_db_per_km : ℝ) (c.distance_km : ℝ)
            (c.detector_efficiency : ℝ) }

/-- State initialised by `E91Protocol.__init__` (e91.py 64-81). -/
structure E91State where
  params : E91Parameters
  channel : E91ChannelParameters
  alice_measurements : List Measurement
  bob_measurements : List Measurement
  bell_parameter_value : ℚ
  sifted_key : List ℕ
  final_key : List ℕ
  alice_transmission : ℝ
  bob_transmission : ℝ

/-- `E91Protocol.__init__` (e91.py 64-86): stores the configuration,
initialises the record lists empty and computes both transmission
probabilities; no range validation, no `raise`. -/
noncomputable def e91_init (p : E91Parameters) (c : E91ChannelParameters) :
    Except String E91State :=
  .ok { params := p, channel := c, alice_measurements := [], bob_measurements := [],
        bell_parameter_value := 0, sifted_key := [], final_key := [],
        alice_transmission :=
          calculate_transmission (c.loss_db_per_km : ℝ) (c.alice_distance_km : ℝ)
            (p.detection_efficiency : ℝ),
        bob_transmission :=
          calculate_transmission (c.loss_db_per_km : ℝ) (c.bob_distance_km : ℝ)
            (p.detection_efficiency : ℝ) }

/-- Whether an `Except` value is a success. -/
def exceptOk {ε α : Type} : Except ε α → Bool
  | .ok _ => true
  | .error _ => false

/-! ## Concrete configurations used by witnesses and counterexamples -/

/-- Default `BB84Parameters` (bb84.py 58-69) with a single pulse and a
zeroed decoy/depolarization split, and `qber_threshold = 0` so that the
security check fails. -/
def bb84WitnessParams : BB84Parameters :=
  { pulse_rate_hz := 1, duration_seconds := 1, basis_choice_prob := 1 / 2,
    decoy_state_prob := 0, weak_intensity := 2 / 10, decoy_intensity := 1 / 10,
    error_correction_efficiency := 12 / 10, privacy_amplification_factor := 2,
    qber_threshold := 0 }

/-- A noiseless single-pulse channel. -/
def bb84WitnessChannel : ChannelParameters :=
  { loss_db_per_km := 0, distance_km := 0, depolarization_rate := 0,
    detector_efficiency := 1, dark_count_rate := 0, timing_jitter_ns := 100 }

/-- Default-valued E91 parameters (e91.py 37-50) with a single pair and no
Bell-test reservation, so the Bell test sees fewer than 4 pairs. -/
def e91WitnessParams : E91Parameters :=
  { pair_generation_rate_hz := 1, duration_seconds := 1, detection_efficiency := 8 / 10,
    dark_count_rate := 1 / 1000000, bell_test_fraction := 0, timing_window_ns := 1,
    bell_violation_threshold := 2, error_correction_efficiency := 12 / 10,
    privacy_amplification_factor := 2 }

/-- A noiseless E91 channel. -/
def e91WitnessChannel : E91ChannelParameters :=
  { loss_db_per_km := 0, alice_distance_km := 0, bob_distance_km := 0,
    depolarization_rate := 0, timing_jitter_ns := 100 }

/-- The all-zero random tape. -/
def zeroRng : Rng := ⟨fun _ => 0, fun _ => [], 0⟩

/-- A channel configuration with an invalid (negative) distance. -/
def negativeDistanceChannel : ChannelParameters :=
  { loss_db_per_km := 2 / 10, distance_km := -1, depolarization_rate := 1 / 1000,
    detector_efficiency := 8 / 10, dark_count_rate := 1 / 1000000, timing_jitter_ns := 100 }

/-- A Bell-test measurement record with the given angle and result. -/
def mkMeasurement (angle : ℚ) (result : ℕ) : Measurement :=
  ⟨angle, result, 0, true⟩

/-- Four coincidence pairs, one per CHSH angle combination, whose empirical
correlations are `E(0,45) = 1`, `E(0,135) = -1`, `E(45,45) = 1`,
`E(45,135) = 1`, so that `S = 4`. -/
def chshExtremePairs : List (Measurement × Measurement) :=
  [(mkMeasurement 0 0, mkMeasurement 45 0),
   (mkMeasurement 0 0, mkMeasurement 135 1),
   (mkMeasurement 45 0, mkMeasurement 45 0),
   (mkMeasurement 45 0, mkMeasurement 135 0)]

/-- C4: for loss coefficient ≥ 0, distance ≥ 0 and detector efficiency in
[0,1], the transmission probability (a pure function, equal by definition to
`10^(-loss_db_per_km * distance_km / 10) * detectorEfficiency`) lies in
[0,1], and at distance 0 it equals the detector efficiency exactly. -/
theorem transmission_prob_in_unit_interval_and_zero_distance
    (loss d eff : ℝ) (hl : 0 ≤ loss) (hd : 0 ≤ d) (he0 : 0 ≤ eff) (he1 : eff ≤ 1) :
    (calculate_transmission loss d eff = (10 : ℝ) ^ (-(loss * d) / 10) * eff) ∧
      (0 ≤ calculate_transmission loss d eff ∧ calculate_transmission loss d eff ≤ 1) ∧
      calculate_transmission loss 0 eff = eff := by
  unfold calculate_transmission
  refine ⟨rfl, ⟨?_, ?_⟩, ?_⟩
  · exact mul_nonneg (Real.rpow_nonneg (by norm_num) _) he0
  · have hexp : -(loss * d) / 10 ≤ 0 := by
      have : 0 ≤ loss * d := mul_nonneg hl hd
      linarith
    have h1 : (10 : ℝ) ^ (-(loss * d) / 10) ≤ 1 :=
      Real.rpow_le_one_of_one_le_of_nonpos (by norm_num) hexp
    have h0 : 0 ≤ (10 : ℝ) ^ (-(loss * d) / 10) := Real.rpow_nonneg (by norm_num) _
    calc (10 : ℝ) ^ (-(loss * d) / 10) * eff ≤ 1 * 1 :=
          mul_le_mul h1 he1 he0 (by norm_num)
      _ = 1 := by norm_num
  · simp [Real.rpow_natCast]

theorem transmission_prob_in_unit_interval_and_zero_distance_witness :
    ((0 : ℝ) ≤ 1 ∧ (0 : ℝ) ≤ 2 ∧ (0 : ℝ) ≤ 1 / 2 ∧ (1 / 2 : ℝ) ≤ 1) ∧
      ((calculate_transmission 1 2 (1 / 2) = (10 : ℝ) ^ (-((1 : ℝ) * 2) / 10) * (1 / 2)) ∧
        (0 ≤ calculate_transmission 1 2 (1 / 2) ∧ calculate_transmission 1 2 (1 / 2) ≤ 1) ∧
        calculate_transmission 1 0 (1 / 2) = 1 / 2) :=
  ⟨⟨by norm_num, by norm_num, by norm_num, by norm_num⟩,
    transmission_prob_in_unit_interval_and_zero_distance 1 2 (1 / 2)
      (by norm_num) (by norm_num) (by norm_num) (by norm_num)⟩

/-- C8: for a fixed non-negative loss coefficient and a fixed non-negative
detector efficiency, the transmission probability is monotonically
non-increasing in distance. -/
theorem transmission_prob_antitone_in_distance
    (loss eff d1 d2 : ℝ) (hl : 0 ≤ loss) (he : 0 ≤ eff) (h : d1 ≤ d2) :
    calculate_transmission loss d2 eff ≤ calculate_transmission loss d1 eff := by
  unfold calculate_transmission
  refine mul_le_mul_of_nonneg_right ?_ he
  apply Real.rpow_le_rpow_of_exponent_le (by norm_num)
  have : loss * d1 ≤ loss * d2 := mul_le_mul_of_nonneg_left h hl
  linarith

theorem transmission_prob_antitone_in_distance_witness :
    ((0 : ℝ) ≤ 1 ∧ (0 : ℝ) ≤ 1 / 2 ∧ (3 : ℝ) ≤ 7) ∧
      calculate_transmission 1 7 (1 / 2) ≤ calculate_transmission 1 3 (1 / 2) :=
  ⟨⟨by norm_num, by norm_num, by norm_num⟩,
    transmission_prob_antitone_in_distance 1 (1 / 2) 3 7 (by norm_num) (by norm_num) (by norm_num)⟩

/-! ## Helper lemmas -/

theorem stateMap_length {α β : Type} (f : α → Rng → β × Rng) (l : List α) (g : Rng) :
    (stateMap f l g).1.length = l.length := by
  induction l generalizing g with
  | nil => simp [stateMap]
  | cons a as ih => simp [stateMap, ih]

theorem basis_reconciliation_go_length_le (as : List (Bit × Basis × ℚ)) (ds : List Detection) :
    (basis_reconciliation_go as ds).1.length ≤ as.length := by
  induction as generalizing ds with
  | nil => simp [basis_reconciliation_go]
  | cons a as ih =>
    cases ds with
    | nil => simp [basis_reconciliation_go]
    | cons d ds =>
      simp only [basis_reconciliation_go]
      split
      · simpa using Nat.succ_le_succ (ih ds)
      · exact Nat.le_succ_of_le (ih ds)

theorem countMismatch_le (a b : List Bit) : countMismatch a b ≤ a.length := by
  induction a generalizing b with
  | nil => simp [countMismatch]
  | cons x xs ih =>
    cases b with
    | nil => simp [countMismatch]
    | cons y ys =>
      simp only [countMismatch, List.length_cons]
      split
      · simp only [Nat.zero_add]
        exact Nat.le_succ_of_le (ih ys)
      · rw [Nat.add_comm]
        exact Nat.succ_le_succ (ih ys)

theorem countMismatch_self (a : List Bit) : countMismatch a a = 0 := by
  induction a with
  | nil => simp [countMismatch]
  | cons x xs ih => simp [countMismatch, ih]

theorem coincidence_filtering_go_length_le (p : E91Parameters)
    (l : List (Option Measurement × Option Measurement)) :
    (coincidence_filtering_go p l).length ≤ l.length := by
  induction l with
  | nil => simp [coincidence_filtering_go]
  | cons ab rest ih =>
    match ab with
    | (some am, some bm) =>
      simp only [coincidence_filtering_go]
      split
      · simpa using Nat.succ_le_succ ih
      · exact Nat.le_succ_of_le ih
    | (some am, none) =>
      simp only [coincidence_filtering_go, List.length_cons]
      exact Nat.le_succ_of_le ih
    | (none, bm) =>
      simp only [coincidence_filtering_go, List.length_cons]
      exact Nat.le_succ_of_le ih

theorem basis_selection_go_key_length_le (idx : List ℕ)
    (l : List (Measurement × Measurement)) (i : ℕ) :
    (basis_selection_go idx l i).2.length ≤ l.length := by
  induction l generalizing i with
  | nil => simp [basis_selection_go]
  | cons pr rest ih =>
    simp only [basis_selection_go]
    split
    · exact Nat.le_succ_of_le (ih (i + 1))
    · split
      · simpa using Nat.succ_le_succ (ih (i + 1))
      · exact Nat.le_succ_of_le (ih (i + 1))

theorem pyInt_of_nonneg {q : ℚ} (h : 0 ≤ q) : pyInt q = Int.floor q := by
  unfold pyInt
  rw [if_neg (not_lt.mpr h)]

/-- `max(0, int(q)).toNat` is bounded by any natural bound on `q`. -/
theorem pyInt_truncation_le {q : ℚ} {n : ℕ} (h0 : 0 ≤ q) (h : q ≤ (n : ℚ)) :
    (max 0 (pyInt q)).toNat ≤ n := by
  rw [pyInt_of_nonneg h0]
  have h1 : Int.floor q ≤ (n : ℤ) := by
    have := Int.floor_le_floor h
    simpa using this
  have h2 : max 0 (Int.floor q) ≤ (n : ℤ) := max_le (by positivity) h1
  exact Int.toNat_le.mpr h2

theorem e91_corrected_len_le (n : ℕ) : e91_corrected_len n ≤ n := by
  unfold e91_corrected_len
  refine pyInt_truncation_le (by positivity) ?_
  have hn : (0 : ℚ) ≤ (n : ℚ) := Nat.cast_nonneg n
  nlinarith

theorem e91_final_len_le (n : ℕ) : e91_final_len n ≤ e91_corrected_len n := by
  unfold e91_final_len
  refine pyInt_truncation_le (by positivity) ?_
  have hn : (0 : ℚ) ≤ ((e91_corrected_len n : ℕ) : ℚ) := Nat.cast_nonneg _
  nlinarith

theorem error_correction_fst_length_le (p : BB84Parameters) (q : ℚ) (a b : List Bit) :
    (error_correction p q a b).1.length ≤ a.length := by
  unfold error_correction
  split
  · exact le_refl _
  · simp [List.length_take]

theorem privacy_amplification_length_le (p : BB84Parameters) (q : ℚ) (k : List Bit) :
    (privacy_amplification p q k).length ≤ k.length := by
  unfold privacy_amplification
  split
  · simp
  · simp [List.length_take]

theorem bb84_sifted_le_raw (p : BB84Parameters) (c : ChannelParameters) (τ : ℚ) (g : Rng) :
    (bb84_pipeline p c τ g).2.1.length ≤ (bb84_pipeline p c τ g).1.length := by
  unfold bb84_pipeline basis_reconciliation
  refine le_trans (basis_reconciliation_go_length_le _ _) ?_
  simp

theorem e91_raw_key_le_pairs (p : E91Parameters) (c : E91ChannelParameters)
    (aT bT : ℚ) (g : Rng) :
    (key_sifting (e91_pipeline p c aT bT g).2.2.2).length ≤
      (e91_pipeline p c aT bT g).1.length := by
  unfold e91_pipeline basis_selection key_sifting coincidence_filtering
  simp only [List.length_map]
  refine le_trans (basis_selection_go_key_length_le _ _ _) ?_
  refine le_trans (coincidence_filtering_go_length_le _ _) ?_
  rw [List.length_zip]
  refine le_trans (min_le_left _ _) ?_
  rw [stateMap_length]

theorem corr_value_abs_le_one (pr : Measurement × Measurement) : |corr_value pr| ≤ 1 := by
  unfold corr_value
  split <;> norm_num

theorem list_sum_abs_le_length (l : List ℚ) (h : ∀ x ∈ l, |x| ≤ 1) :
    |l.sum| ≤ (l.length : ℚ) := by
  induction l with
  | nil => simp
  | cons x xs ih =>
    simp only [List.sum_cons, List.length_cons]
    calc |x + xs.sum| ≤ |x| + |xs.sum| := abs_add _ _
      _ ≤ 1 + (xs.length : ℚ) :=
        add_le_add (h x (by simp)) (ih fun y hy => h y (by simp [hy]))
      _ = ((xs.length + 1 : ℕ) : ℚ) := by push_cast; ring

theorem avg_corr_abs_le_one (pairs : List (Measurement × Measurement)) (a b : ℚ) :
    |avg_corr pairs a b| ≤ 1 := by
  unfold avg_corr
  simp only []
  split
  · norm_num
  · rename_i hne
    have hpos : (0 : ℚ) < ((corr_list pairs a b).length : ℚ) := by
      have : 0 < (corr_list pairs a b).length := Nat.pos_of_ne_zero hne
      exact_mod_cast this
    rw [abs_div, abs_of_pos hpos, div_le_one hpos]
    refine list_sum_abs_le_length _ ?_
    intro x hx
    obtain ⟨pr, _, rfl⟩ := List.mem_map.mp hx
    exact corr_value_abs_le_one pr

/-! ## Claim theorems -/

/-- C3: the key-length pipeline is monotonically shrinking in both protocol
variants: the sifted key is no longer than the raw generated events, the
error-corrected key no longer than the sifted key, and the final key no
longer than the corrected key, for every configuration and random tape. -/
theorem key_pipeline_monotone_shrinking :
    (∀ (p : BB84Parameters) (c : ChannelParameters) (τ : ℚ) (g : Rng),
        (bb84_pipeline p c τ g).2.1.length ≤ (bb84_pipeline p c τ g).1.length) ∧
    (∀ (p : BB84Parameters) (q : ℚ) (a b : List Bit),
        (error_correction p q a b).1.length ≤ a.length) ∧
    (∀ (p : BB84Parameters) (q : ℚ) (k : List Bit),
        (privacy_amplification p q k).length ≤ k.length) ∧
    (∀ (p : E91Parameters) (c : E91ChannelParameters) (aT bT : ℚ) (g : Rng),
        (key_sifting (e91_pipeline p c aT bT g).2.2.2).length ≤
          (e91_pipeline p c aT bT g).1.length) ∧
    (∀ n : ℕ, e91_corrected_len n ≤ n) ∧
    (∀ n : ℕ, e91_final_len n ≤ e91_corrected_len n) :=
  ⟨bb84_sifted_le_raw, error_correction_fst_length_le, privacy_amplification_length_le,
    e91_raw_key_le_pairs, e91_corrected_len_le, e91_final_len_le⟩

/-- C2: both protocol runs are pure functions of the configuration and the
random tape: two runs with identical parameters and identical rng state
produce identical results. -/
theorem protocol_run_deterministic (p : BB84Parameters) (c : ChannelParameters) (τ : ℚ)
    (g g' : Rng) (pe : E91Parameters) (ce : E91ChannelParameters) (aT bT : ℚ)
    (h h' : Rng) (hg : g = g') (hh : h = h') :
    run_protocol p c τ g = run_protocol p c τ g' ∧
      e91_run_protocol pe ce aT bT h = e91_run_protocol pe ce aT bT h' := by
  subst hg
  subst hh
  exact ⟨rfl, rfl⟩

theorem protocol_run_deterministic_witness :
    zeroRng = zeroRng ∧
      (run_protocol bb84WitnessParams bb84WitnessChannel 1 zeroRng =
          run_protocol bb84WitnessParams bb84WitnessChannel 1 zeroRng ∧
        e91_run_protocol e91WitnessParams e91WitnessChannel 1 1 zeroRng =
          e91_run_protocol e91WitnessParams e91WitnessChannel 1 1 zeroRng) :=
  ⟨rfl, protocol_run_deterministic bb84WitnessParams bb84WitnessChannel 1 zeroRng zeroRng
    e91WitnessParams e91WitnessChannel 1 1 zeroRng zeroRng rfl rfl⟩

/-- C10: a Bell-test subset with fewer than 4 coincidence pairs yields
`S = 0.0` exactly, and with the Bell violation threshold at its value 2.0
the security verdict is false regardless of the QBER. -/
theorem bell_test_insufficient_data_insecure (bell_pairs : List (Measurement × Measurement))
    (p : E91Parameters) (qber : ℚ) (sifted_len : ℕ)
    (hlen : bell_pairs.length < 4) (hthr : p.bell_violation_threshold = 2) :
    bell_test bell_pairs = 0 ∧
      (e91_security_analysis p (bell_test bell_pairs) qber sifted_len).secure = false := by
  have hS : bell_test bell_pairs = 0 := by
    unfold bell_test
    rw [if_pos hlen]
  refine ⟨hS, ?_⟩
  have hproj : (e91_security_analysis p (bell_test bell_pairs) qber sifted_len).secure =
      e91_secure p (bell_test bell_pairs) qber := rfl
  rw [hproj, hS]
  unfold e91_secure
  rw [hthr]
  have h2 : decide ((2 : ℚ) < 0) = false := by
    rw [decide_eq_false_iff_not]
    norm_num
  rw [h2, Bool.false_and]

theorem bell_test_insufficient_data_insecure_witness :
    (([] : List (Measurement × Measurement)).length < 4 ∧
        e91WitnessParams.bell_violation_threshold = 2) ∧
      (bell_test [] = 0 ∧
        (e91_security_analysis e91WitnessParams (bell_test []) 0 0).secure = false) :=
  ⟨⟨by norm_num, rfl⟩,
    bell_test_insufficient_data_insecure [] e91WitnessParams 0 0 (by norm_num) rfl⟩

/-- C9 counterexample: the claim that invalid configurations are rejected
eagerly is false — the constructor accepts a negative distance and returns
a successfully initialised protocol state. -/
theorem invalid_config_accepted_counterexample :
    negativeDistanceChannel.distance_km < 0 ∧
      exceptOk (bb84_init bb84WitnessParams negativeDistanceChannel) = true :=
  ⟨by norm_num [negativeDistanceChannel], rfl⟩

/-- C9 (amended): neither protocol constructor validates its configuration:
construction always succeeds, for every parameter set, including negative
distances and out-of-range probabilities, so no validation failure distinct
from a protocol failure is ever surfaced. -/
theorem constructors_never_validate :
    (∀ (p : BB84Parameters) (c : ChannelParameters), exceptOk (bb84_init p c) = true) ∧
      ∀ (p : E91Parameters) (c : E91ChannelParameters), exceptOk (e91_init p c) = true :=
  ⟨fun _ _ => rfl, fun _ _ => rfl⟩

/-- C7 counterexample: the CHSH parameter of the Bell test is not bounded by
`2 * sqrt 2`: four coincidence pairs realising correlations `(1, -1, 1, 1)`
for the four CHSH angle combinations give `S = 4`. -/
theorem chsh_exceeds_quantum_bound_counterexample :
    bell_test chshExtremePairs = 4 ∧
      ¬ ((bell_test chshExtremePairs : ℚ) : ℝ) ≤ 2 * Real.sqrt 2 := by
  have hS : bell_test chshExtremePairs = 4 := by
    norm_num [bell_test, chshExtremePairs, avg_corr, corr_list, corr_value, mkMeasurement,
      List.filter, abs]
  refine ⟨hS, ?_⟩
  rw [hS]
  have hsqrt : Real.sqrt 2 < 2 := by
    have h4 : Real.sqrt 4 = 2 := by
      rw [show (4 : ℝ) = 2 ^ 2 by norm_num, Real.sqrt_sq (by norm_num : (0 : ℝ) ≤ 2)]
    calc Real.sqrt 2 < Real.sqrt 4 := Real.sqrt_lt_sqrt (by norm_num) (by norm_num)
      _ = 2 := h4
  push_cast
  intro hcontra
  linarith

/-- C7 (amended): for every Bell-pair list the CHSH parameter computed by
`bell_test` lies in `[0, 4]`: each empirical correlation is a mean of ±1
values (or the 0 default), so it lies in `[-1, 1]`, and the four-term
combination is bounded by 4 in absolute value.  The quantum bound `2√2`
does not hold (see the counterexample). -/
theorem chsh_parameter_in_zero_four (bell_pairs : List (Measurement × Measurement)) :
    0 ≤ bell_test bell_pairs ∧ bell_test bell_pairs ≤ 4 := by
  unfold bell_test
  split
  · norm_num
  · refine ⟨abs_nonneg _, ?_⟩
    obtain ⟨h1l, h1r⟩ := abs_le.mp (avg_corr_abs_le_one bell_pairs 0 45)
    obtain ⟨h2l, h2r⟩ := abs_le.mp (avg_corr_abs_le_one bell_pairs 0 135)
    obtain ⟨h3l, h3r⟩ := abs_le.mp (avg_corr_abs_le_one bell_pairs 45 45)
    obtain ⟨h4l, h4r⟩ := abs_le.mp (avg_corr_abs_le_one bell_pairs 45 135)
    exact abs_le.mpr ⟨by linarith, by linarith⟩

/-- C5 counterexample: the entangled variant does not apply the claimed
QBER-driven post-processing formulas: at raw key length 10 and QBER 0 the
claimed corrected length is `max(0, 10 - int(1.2*10*0*log2(2))) = 10`, but
the code truncates to `int(10 * 0.8) = 8` (and then to `int(8 * 0.7) = 5`). -/
theorem post_processing_formula_counterexample :
    e91_corrected_len 10 = 8 ∧ e91_final_len 10 = 5 ∧
      (max 0 ((10 : ℤ) - pyInt ((12 / 10 : ℚ) * 10 * 0 * np_log2_two))).toNat = 10 ∧
      e91_corrected_len 10 ≠
        (max 0 ((10 : ℤ) - pyInt ((12 / 10 : ℚ) * 10 * 0 * np_log2_two))).toNat := by
  have h1 : e91_corrected_len 10 = 8 := by
    norm_num [e91_corrected_len, pyInt, max_def]
    rfl
  have h3 : (max 0 ((10 : ℤ) - pyInt ((12 / 10 : ℚ) * 10 * 0 * np_log2_two))).toNat = 10 := by
    norm_num [pyInt, np_log2_two, max_def]
    rfl
  refine ⟨h1, ?_, h3, ?_⟩
  · rw [e91_final_len, h1]
    norm_num [pyInt, max_def]
    rfl
  · rw [h1, h3]
    norm_num

/-- C5 (amended): in the prepare-and-measure variant, error correction and
privacy amplification are exactly the claimed deterministic stable prefix
truncations — for equal-length keys and non-negative QBER and coefficients
the corrected keys are the prefixes of length
`max(0, len - floor(ecEff * len * QBER * log2 2))` and the final key the
prefix of length `max(0, len - min(len, floor(len * QBER * paFactor)))`.
The entangled variant instead truncates the raw key with the fixed factors
0.8 and then 0.7 (e91.py 422-423), which also shrink monotonically. -/
theorem post_processing_prefix_truncation (p : BB84Parameters) (q : ℚ) (a b : List Bit)
    (hlen : a.length = b.length) (hq : 0 ≤ q) (hec : 0 ≤ p.error_correction_efficiency)
    (hpa : 0 ≤ p.privacy_amplification_factor) :
    (error_correction p q a b =
        (a.take (max 0 ((a.length : ℤ) -
            Int.floor (p.error_correction_efficiency * (a.length : ℚ) * q * np_log2_two))).toNat,
         b.take (max 0 ((a.length : ℤ) -
            Int.floor (p.error_correction_efficiency * (a.length : ℚ) * q * np_log2_two))).toNat)) ∧
      (privacy_amplification p q a =
        a.take (max 0 ((a.length : ℤ) - min (a.length : ℤ)
            (Int.floor ((a.length : ℚ) * q * p.privacy_amplification_factor)))).toNat) ∧
      (∀ n : ℕ, e91_corrected_len n ≤ n ∧ e91_final_len n ≤ e91_corrected_len n) := by
  refine ⟨?_, ?_, fun n => ⟨e91_corrected_len_le n, e91_final_len_le n⟩⟩
  · unfold error_correction
    rw [if_neg (not_ne_iff.mpr hlen)]
    rw [pyInt_of_nonneg]
    have h0 : (0 : ℚ) ≤ (a.length : ℚ) := Nat.cast_nonneg _
    have h1 : (0 : ℚ) ≤ np_log2_two := by norm_num [np_log2_two]
    positivity
  · unfold privacy_amplification
    split
    · rename_i hz
      rw [List.length_eq_zero.mp hz]
      simp
    · rw [pyInt_of_nonneg]
      have h0 : (0 : ℚ) ≤ (a.length : ℚ) := Nat.cast_nonneg _
      positivity

theorem post_processing_prefix_truncation_witness :
    (([Bit.zero] : List Bit).length = [Bit.one].length ∧ (0 : ℚ) ≤ 0 ∧
        (0 : ℚ) ≤ bb84WitnessParams.error_correction_efficiency ∧
        (0 : ℚ) ≤ bb84WitnessParams.privacy_amplification_factor) ∧
      ((error_correction bb84WitnessParams 0 [Bit.zero] [Bit.one] =
          ([Bit.zero].take (max 0 (([Bit.zero].length : ℤ) -
              Int.floor (bb84WitnessParams.error_correction_efficiency *
                (([Bit.zero].length : ℕ) : ℚ) * 0 * np_log2_two))).toNat,
           [Bit.one].take (max 0 (([Bit.zero].length : ℤ) -
              Int.floor (bb84WitnessParams.error_correction_efficiency *
                (([Bit.zero].length : ℕ) : ℚ) * 0 * np_log2_two))).toNat)) ∧
        (privacy_amplification bb84WitnessParams 0 [Bit.zero] =
          [Bit.zero].take (max 0 (([Bit.zero].length : ℤ) - min ([Bit.zero].length : ℤ)
              (Int.floor ((([Bit.zero].length : ℕ) : ℚ) * 0 *
                bb84WitnessParams.privacy_amplification_factor)))).toNat) ∧
        (∀ n : ℕ, e91_corrected_len n ≤ n ∧ e91_final_len n ≤ e91_corrected_len n)) :=
  ⟨⟨rfl, le_refl 0, by norm_num [bb84WitnessParams], by norm_num [bb84WitnessParams]⟩,
    post_processing_prefix_truncation bb84WitnessParams 0 [Bit.zero] [Bit.one] rfl
      (le_refl 0) (by norm_num [bb84WitnessParams]) (by norm_num [bb84WitnessParams])⟩

/-- C6 counterexample: the QBER of the empty sequence compared against
itself is 1.0, not 0, so the self-comparison clause fails on empty input. -/
theorem qber_empty_self_comparison_counterexample :
    error_estimation [] [] = 1 ∧ error_estimation [] [] ≠ 0 := by
  norm_num [error_estimation]

/-- C6 (amended): for every pair of equal-length NONEMPTY sifted sequences
the computed QBER equals the number of disagreeing positions divided by the
sifted length; every returned QBER, in either variant, lies in [0,1]; and a
nonempty sequence compared against itself has QBER exactly 0.  (The empty
sequence returns the sentinel 1.0, see the counterexample.) -/
theorem qber_formula_range_and_self (a b : List Bit)
    (hlen : a.length = b.length) (hne : a ≠ []) :
    (error_estimation a b = (countMismatch a b : ℚ) / (a.length : ℚ)) ∧
      (∀ x y : List Bit, 0 ≤ error_estimation x y ∧ error_estimation x y ≤ 1) ∧
      (error_estimation a a = 0) ∧
      (∀ kp : List (Measurement × Measurement),
        0 ≤ e91_error_estimation kp ∧ e91_error_estimation kp ≤ 1) := by
  have hlz : a.length ≠ 0 := fun h => hne (List.length_eq_zero.mp h)
  refine ⟨?_, ?_, ?_, ?_⟩
  · unfold error_estimation
    rw [if_neg]
    push_neg
    exact ⟨hlen, hlz⟩
  · intro x y
    unfold error_estimation
    split
    · norm_num
    · rename_i hcond
      push_neg at hcond
      have hxpos : (0 : ℚ) < (x.length : ℚ) := by
        exact_mod_cast Nat.pos_of_ne_zero hcond.2
      constructor
      · positivity
      · rw [div_le_one hxpos]
        exact_mod_cast countMismatch_le x y
  · unfold error_estimation
    rw [if_neg]
    · rw [countMismatch_self]
      simp
    · push_neg
      exact ⟨rfl, hlz⟩
  · intro kp
    cases kp with
    | nil => norm_num [e91_error_estimation]
    | cons x xs =>
      unfold e91_error_estimation
      rw [if_neg (by simp)]
      have hpos : (0 : ℚ) < (((x :: xs).length : ℕ) : ℚ) := by
        exact_mod_cast Nat.succ_pos xs.length
      constructor
      · positivity
      · rw [div_le_one hpos]
        exact_mod_cast List.length_filter_le _ (x :: xs)

theorem qber_formula_range_and_self_witness :
    (([Bit.zero] : List Bit).length = [Bit.one].length ∧ ([Bit.zero] : List Bit) ≠ []) ∧
      ((error_estimation [Bit.zero] [Bit.one] =
          (countMismatch [Bit.zero] [Bit.one] : ℚ) / (([Bit.zero] : List Bit).length : ℚ)) ∧
        (∀ x y : List Bit, 0 ≤ error_estimation x y ∧ error_estimation x y ≤ 1) ∧
        (error_estimation [Bit.zero] [Bit.zero] = 0) ∧
        (∀ kp : List (Measurement × Measurement),
          0 ≤ e91_error_estimation kp ∧ e91_error_estimation kp ≤ 1)) :=
  ⟨⟨rfl, by simp⟩,
    qber_formula_range_and_self [Bit.zero] [Bit.one] rfl (by simp)⟩

/-- C1: in both protocol variants, every run whose security check fails
(however long the sifted key is) returns success = false with final key
length 0 — no final key is emitted — and the result carries the computed
security metrics. -/
theorem security_check_failure_emits_no_key
    (p : BB84Parameters) (c : ChannelParameters) (τ : ℚ) (g : Rng)
    (pe : E91Parameters) (ce : E91ChannelParameters) (aT bT : ℚ) (ge : Rng)
    (hBne : (bb84_pipeline p c τ g).2.1 ≠ [])
    (hBsec : bb84_secure p
      (error_estimation (bb84_pipeline p c τ g).2.1 (bb84_pipeline p c τ g).2.2) = false)
    (hEco : (e91_pipeline pe ce aT bT ge).2.1 ≠ [])
    (hEraw : key_sifting (e91_pipeline pe ce aT bT ge).2.2.2 ≠ [])
    (hEsec : e91_secure pe (bell_test (e91_pipeline pe ce aT bT ge).2.2.1)
      (e91_error_estimation (e91_pipeline pe ce aT bT ge).2.2.2) = false) :
    ((run_protocol p c τ g).success = false ∧
      (run_protocol p c τ g).final_key_bits = 0 ∧
      (run_protocol p c τ g).metrics = some (security_analysis p c
        (error_estimation (bb84_pipeline p c τ g).2.1 (bb84_pipeline p c τ g).2.2)
        (bb84_pipeline p c τ g).2.1.length)) ∧
    ((e91_run_protocol pe ce aT bT ge).success = false ∧
      (e91_run_protocol pe ce aT bT ge).final_key_bits = 0 ∧
      (e91_run_protocol pe ce aT bT ge).metrics = some (e91_security_analysis pe
        (bell_test (e91_pipeline pe ce aT bT ge).2.2.1)
        (e91_error_estimation (e91_pipeline pe ce aT bT ge).2.2.2)
        (key_sifting (e91_pipeline pe ce aT bT ge).2.2.2).length)) := by
  constructor
  · have hc1 : ¬ ((bb84_pipeline p c τ g).2.1.length = 0) := by
      simpa [List.length_eq_zero] using hBne
    have hproj : ∀ (q : ℚ) (n : ℕ), (security_analysis p c q n).secure = bb84_secure p q :=
      fun _ _ => rfl
    simp only [run_protocol]
    rw [if_neg hc1, hproj, hBsec]
    simp only [Bool.false_eq_true, if_false]
    simp
  · have hc1 : ¬ ((e91_pipeline pe ce aT bT ge).2.1.length = 0) := by
      simpa [List.length_eq_zero] using hEco
    have hc2 : ¬ ((key_sifting (e91_pipeline pe ce aT bT ge).2.2.2).length = 0) := by
      simpa [List.length_eq_zero] using hEraw
    have hproj : ∀ (S q : ℚ) (n : ℕ),
        (e91_security_analysis pe S q n).secure = e91_secure pe S q :=
      fun _ _ _ => rfl
    simp only [e91_run_protocol]
    rw [if_neg hc1, if_neg hc2, hproj, hEsec]
    simp only [Bool.false_eq_true, if_false]
    simp

theorem security_check_failure_emits_no_key_witness :
    ((bb84_pipeline bb84WitnessParams bb84WitnessChannel 1 zeroRng).2.1 ≠ [] ∧
      bb84_secure bb84WitnessParams
        (error_estimation (bb84_pipeline bb84WitnessParams bb84WitnessChannel 1 zeroRng).2.1
          (bb84_pipeline bb84WitnessParams bb84WitnessChannel 1 zeroRng).2.2) = false ∧
      (e91_pipeline e91WitnessParams e91WitnessChannel 1 1 zeroRng).2.1 ≠ [] ∧
      key_sifting (e91_pipeline e91WitnessParams e91WitnessChannel 1 1 zeroRng).2.2.2 ≠ [] ∧
      e91_secure e91WitnessParams
        (bell_test (e91_pipeline e91WitnessParams e91WitnessChannel 1 1 zeroRng).2.2.1)
        (e91_error_estimation
          (e91_pipeline e91WitnessParams e91WitnessChannel 1 1 zeroRng).2.2.2) = false) ∧
    (((run_protocol bb84WitnessParams bb84WitnessChannel 1 zeroRng).success = false ∧
        (run_protocol bb84WitnessParams bb84WitnessChannel 1 zeroRng).final_key_bits = 0 ∧
        (run_protocol bb84WitnessParams bb84WitnessChannel 1 zeroRng).metrics =
          some (security_analysis bb84WitnessParams bb84WitnessChannel
            (error_estimation
              (bb84_pipeline bb84WitnessParams bb84WitnessChannel 1 zeroRng).2.1
              (bb84_pipeline bb84WitnessParams bb84WitnessChannel 1 zeroRng).2.2)
            (bb84_pipeline bb84WitnessParams bb84WitnessChannel 1 zeroRng).2.1.length)) ∧
      ((e91_run_protocol e91WitnessParams e91WitnessChannel 1 1 zeroRng).success = false ∧
        (e91_run_protocol e91WitnessParams e91WitnessChannel 1 1 zeroRng).final_key_bits = 0 ∧
        (e91_run_protocol e91WitnessParams e91WitnessChannel 1 1 zeroRng).metrics =
          some (e91_security_analysis e91WitnessParams
            (bell_test (e91_pipeline e91WitnessParams e91WitnessChannel 1 1 zeroRng).2.2.1)
            (e91_error_estimation
              (e91_pipeline e91WitnessParams e91WitnessChannel 1 1 zeroRng).2.2.2)
            (key_sifting
              (e91_pipeline e91WitnessParams e91WitnessChannel 1 1 zeroRng).2.2.2).length))) := by
  have hBpipe1 : (bb84_pipeline bb84WitnessParams bb84WitnessChannel 1 zeroRng).2.1 =
      [Bit.zero] := by
    norm_num [bb84_pipeline, alice_prepare, num_pulses, pyInt, bb84WitnessParams,
      bb84WitnessChannel, zeroRng, stateMap, alice_prepare_one, generate_random_bit,
      generate_random_basis, choose_intensity, Rng.nextQ, quantum_channel, quantum_channel_one,
      bob_measure, bob_measure_one, basis_reconciliation, basis_reconciliation_go,
      List.range_succ, max_def]
  have hBpipe2 : (bb84_pipeline bb84WitnessParams bb84WitnessChannel 1 zeroRng).2.2 =
      [Bit.zero] := by
    norm_num [bb84_pipeline, alice_prepare, num_pulses, pyInt, bb84WitnessParams,
      bb84WitnessChannel, zeroRng, stateMap, alice_prepare_one, generate_random_bit,
      generate_random_basis, choose_intensity, Rng.nextQ, quantum_channel, quantum_channel_one,
      bob_measure, bob_measure_one, basis_reconciliation, basis_reconciliation_go,
      List.range_succ, max_def]
  have hB1 : (bb84_pipeline bb84WitnessParams bb84WitnessChannel 1 zeroRng).2.1 ≠ [] := by
    rw [hBpipe1]
    simp
  have hqber : error_estimation
      (bb84_pipeline bb84WitnessParams bb84WitnessChannel 1 zeroRng).2.1
      (bb84_pipeline bb84WitnessParams bb84WitnessChannel 1 zeroRng).2.2 = 0 := by
    rw [hBpipe1, hBpipe2]
    norm_num [error_estimation, countMismatch]
  have hB2 : bb84_secure bb84WitnessParams
      (error_estimation (bb84_pipeline bb84WitnessParams bb84WitnessChannel 1 zeroRng).2.1
        (bb84_pipeline bb84WitnessParams bb84WitnessChannel 1 zeroRng).2.2) = false := by
    rw [hqber]
    norm_num [bb84_secure, bb84WitnessParams]
  have hEco' : (e91_pipeline e91WitnessParams e91WitnessChannel 1 1 zeroRng).2.1 =
      [(⟨0, 0, 0, true⟩, ⟨45, 0, 0, true⟩)] := by
    norm_num [e91_pipeline, generate_entangled_pairs, num_pairs, gen_pair_one, stateMap,
      alice_measure_one, e91_bob_measure_one, calc_measurement_result, Rng.nextQ, Rng.randInt01,
      Rng.choice3, coincidence_filtering, coincidence_filtering_go, basis_selection,
      basis_selection_go, Rng.sample, is_key_compatible, pyInt, max_def, List.range_succ,
      e91WitnessParams, e91WitnessChannel, zeroRng]
  have hEbell : (e91_pipeline e91WitnessParams e91WitnessChannel 1 1 zeroRng).2.2.1 = [] := by
    norm_num [e91_pipeline, generate_entangled_pairs, num_pairs, gen_pair_one, stateMap,
      alice_measure_one, e91_bob_measure_one, calc_measurement_result, Rng.nextQ, Rng.randInt01,
      Rng.choice3, coincidence_filtering, coincidence_filtering_go, basis_selection,
      basis_selection_go, Rng.sample, is_key_compatible, pyInt, max_def, List.range_succ,
      e91WitnessParams, e91WitnessChannel, zeroRng]
  have hEkp : (e91_pipeline e91WitnessParams e91WitnessChannel 1 1 zeroRng).2.2.2 =
      [(⟨0, 0, 0, true⟩, ⟨45, 0, 0, true⟩)] := by
    norm_num [e91_pipeline, generate_entangled_pairs, num_pairs, gen_pair_one, stateMap,
      alice_measure_one, e91_bob_measure_one, calc_measurement_result, Rng.nextQ, Rng.randInt01,
      Rng.choice3, coincidence_filtering, coincidence_filtering_go, basis_selection,
      basis_selection_go, Rng.sample, is_key_compatible, pyInt, max_def, List.range_succ,
      e91WitnessParams, e91WitnessChannel, zeroRng]
  have hE1 : (e91_pipeline e91WitnessParams e91WitnessChannel 1 1 zeroRng).2.1 ≠ [] := by
    rw [hEco']
    simp
  have hE2 : key_sifting (e91_pipeline e91WitnessParams e91WitnessChannel 1 1 zeroRng).2.2.2 ≠
      [] := by
    rw [hEkp]
    simp [key_sifting]
  have hS : bell_test (e91_pipeline e91WitnessParams e91WitnessChannel 1 1 zeroRng).2.2.1 = 0 := by
    rw [hEbell]
    norm_num [bell_test]
  have hE3 : e91_secure e91WitnessParams
      (bell_test (e91_pipeline e91WitnessParams e91WitnessChannel 1 1 zeroRng).2.2.1)
      (e91_error_estimation
        (e91_pipeline e91WitnessParams e91WitnessChannel 1 1 zeroRng).2.2.2) = false := by
    rw [hS]
    unfold e91_secure
    have hdec : decide (e91WitnessParams.bell_violation_threshold < 0) = false := by
      rw [decide_eq_false_iff_not]
      norm_num [e91WitnessParams]
    rw [hdec, Bool.false_and]
  exact ⟨⟨hB1, hB2, hE1, hE2, hE3⟩,
    security_check_failure_emits_no_key bb84WitnessParams bb84WitnessChannel 1 zeroRng
      e91WitnessParams e91WitnessChannel 1 1 zeroRng hB1 hB2 hE1 hE2 hE3⟩

end SynapseQNet
